import Mathlib

/-!
Verification of the feinsum autotuning core (`feinsum/tuning/__init__.py`).

The development shallowly embeds the data model and operations of the
autotuning search-and-cache engine: tuning-parameter declaration
(`IntParameter`, `BoolParameter`), the parametrized-transform builder
(`einsum_arg`, `transform_param`, `ParametrizedTransform.bind_args`), the
sqlite-backed result cache (`query_from_db`, `record_into_db`), the
per-candidate driver step (`OpentunerTuner.run`), the transform-space
loader (`get_transform_func_from_module_path`) and the `autotune` entry
point.  Runtimes (sqlite `REAL`) are modelled as rationals; the database
is a list of rows in insertion order; Python exceptions are modelled as
`Except` / explicit outcome constructors.
-/

namespace Feinsum

/-- JSON scalar values appearing in a parameter assignment (opentuner
configurations assign integers or booleans to parameter names). -/
inductive JValue where
  | jint (n : Int)
  | jbool (b : Bool)
deriving DecidableEq

/-- A parameter assignment: the items of a Python dict mapping parameter
names to values, in the dict's iteration order. -/
abbrev Params := List (String × JValue)

/-- Comparison of dict items by key, the order used by
`json.dumps(parameters, sort_keys=True)`. -/
def keyLe (a b : String × JValue) : Prop := a.1 ≤ b.1

/-- Strict version of `keyLe`, attained on items with distinct keys. -/
def keyLt (a b : String × JValue) : Prop := a.1 < b.1

instance : DecidableRel keyLe := fun a b => inferInstanceAs (Decidable (a.1 ≤ b.1))

instance : IsTotal (String × JValue) keyLe := ⟨fun a b => le_total a.1 b.1⟩

instance : IsTrans (String × JValue) keyLe := ⟨fun _ _ _ h₁ h₂ => le_trans h₁ h₂⟩

instance : IsAntisymm (String × JValue) keyLt := ⟨fun _ _ h₁ h₂ => absurd h₁ (lt_asymm h₂)⟩

/-- The key-sorting step of `json.dumps(parameters, sort_keys=True)`. -/
def sortParams (ps : Params) : Params := ps.insertionSort keyLe

/-- JSON rendering of a scalar value. -/
def renderJValue : JValue → String
  | .jint n => toString n
  | .jbool b => if b then "true" else "false"

/-- JSON rendering of one `"key": value` item. -/
def renderPair (kv : String × JValue) : String :=
  "\"" ++ kv.1 ++ "\": " ++ renderJValue kv.2

/-- Model of `json.dumps(parameters, sort_keys=True)`: render the items
in sorted key order, between braces, separated by commas. -/
def dumps (ps : Params) : String :=
  "\x7b" ++ String.intercalate ", " ((sortParams ps).map renderPair) ++ "\x7d"

theorem sortParams_eq_of_perm {ps₁ ps₂ : Params} (hperm : ps₁.Perm ps₂)
    (hnd : (ps₁.map Prod.fst).Nodup) : sortParams ps₁ = sortParams ps₂ := by
  have h₁ : (sortParams ps₁).Perm ps₁ := List.perm_insertionSort keyLe ps₁
  have h₂ : (sortParams ps₂).Perm ps₂ := List.perm_insertionSort keyLe ps₂
  have hp : (sortParams ps₁).Perm (sortParams ps₂) := h₁.trans (hperm.trans h₂.symm)
  have hs₁ : (sortParams ps₁).Sorted keyLe := List.sorted_insertionSort keyLe ps₁
  have hs₂ : (sortParams ps₂).Sorted keyLe := List.sorted_insertionSort keyLe ps₂
  have hndk₁ : ((sortParams ps₁).map Prod.fst).Nodup :=
    ((h₁.map Prod.fst).nodup_iff).mpr hnd
  have hndk₂ : ((sortParams ps₂).map Prod.fst).Nodup :=
    ((h₂.map Prod.fst).nodup_iff).mpr ((hperm.map Prod.fst).nodup_iff.mp hnd)
  have hne₁ : (sortParams ps₁).Pairwise (fun a b => a.1 ≠ b.1) :=
    List.pairwise_map.mp hndk₁
  have hne₂ : (sortParams ps₂).Pairwise (fun a b => a.1 ≠ b.1) :=
    List.pairwise_map.mp hndk₂
  have hss₁ : (sortParams ps₁).Sorted keyLt :=
    (hs₁.and hne₁).imp (fun h => lt_of_le_of_ne h.1 h.2)
  have hss₂ : (sortParams ps₂).Sorted keyLt :=
    (hs₂.and hne₂).imp (fun h => lt_of_le_of_ne h.1 h.2)
  exact List.eq_of_perm_of_sorted hp hss₁ hss₂

theorem dumps_eq_of_perm {ps₁ ps₂ : Params} (hperm : ps₁.Perm ps₂)
    (hnd : (ps₁.map Prod.fst).Nodup) : dumps ps₁ = dumps ps₂ := by
  unfold dumps
  rw [sortParams_eq_of_perm hperm hnd]

/-- One row of the per-device sqlite table (schema from `conn`); the
auto-increment `ID` column is the list position and is not modelled. -/
structure DBRecord where
  subscripts : String
  index_to_length : String
  use_matrix : String
  value_to_dtype : String
  transform_id : String
  transform_params : String
  runtime_in_sec : ℚ
  compiler_version : String
  giga_op_info : String
  timestamp : String
deriving DecidableEq

/-- The state of an `OpentunerTuner` relevant to the cache operations:
the problem fingerprint strings derived from the (canonicalized) einsum
and the long dimension length by the external `feinsum.sql_utils` dump
functions, plus the transform-space identity. -/
structure Tuner where
  subscripts : String
  index_to_length : String
  use_matrix : String
  value_to_dtype : String
  giga_op_info : String
  transform_space_id : String
deriving DecidableEq

/-- The `WHERE` clause of `OpentunerTuner.query_from_db`: it compares
`subscripts`, `index_to_length`, `use_matrix`, `value_to_dtype`,
`transform_params` and `giga_op_info` — and, notably, not
`transform_id`. -/
def matchesQuery (t : Tuner) (paramsStr : String) (r : DBRecord) : Bool :=
  r.subscripts == t.subscripts &&
  r.index_to_length == t.index_to_length &&
  r.use_matrix == t.use_matrix &&
  r.value_to_dtype == t.value_to_dtype &&
  r.transform_params == paramsStr &&
  r.giga_op_info == t.giga_op_info

/-- The full lookup key claimed by the spec: the fingerprint match of
`matchesQuery` plus equality of the transform-space identity. -/
def matchesSpecKey (t : Tuner) (paramsStr : String) (r : DBRecord) : Bool :=
  matchesQuery t paramsStr r && (r.transform_id == t.transform_space_id)

/-- The distinguished error raised by `query_from_db` on a cache miss
(`class ConfigurationNotInDBError(LookupError)`). -/
inductive ConfigurationNotInDBError where
  | mk
deriving DecidableEq

/-- Model of `OpentunerTuner.query_from_db`: serialize the parameters
with sorted keys, fetch all rows matching the `WHERE` clause, raise
`ConfigurationNotInDBError` if there are none, and otherwise return the
minimum `runtime_in_sec` among them. -/
def query_from_db (t : Tuner) (db : List DBRecord) (parameters : Params) :
    Except ConfigurationNotInDBError ℚ :=
  match db.filter (matchesQuery t (dumps parameters)) with
  | [] => .error .mk
  | r :: rs => .ok (rs.foldl (fun acc s => min acc s.runtime_in_sec) r.runtime_in_sec)

/-- Model of `OpentunerTuner.record_into_db`: append one row holding the
fingerprint fields, the transform-space identity, the key-sorted
parameter serialization, the runtime, the compiler version and the
timestamp, then commit.  The store is append-only. -/
def record_into_db (t : Tuner) (db : List DBRecord) (runtime : ℚ)
    (parameters : Params) (compiler_version timestamp : String) : List DBRecord :=
  db ++ [⟨t.subscripts, t.index_to_length, t.use_matrix, t.value_to_dtype,
          t.transform_space_id, dumps parameters, runtime, compiler_version,
          t.giga_op_info, timestamp⟩]

/-- Outcome of one call to an external measurement collaborator: a
normal return, an `InvalidParameterError`, or any other exception. -/
inductive MeasureOutcome (α : Type) where
  | ok (a : α)
  | raiseInvalidParameter
  | raiseOther
deriving DecidableEq

/-- The exceptions that can escape `OpentunerTuner.run`. -/
inductive PyError where
  | invalidParameterError
  | otherError
deriving DecidableEq

/-- An opentuner cost report: `opentuner.Result(time=...)`, where the
time is either a measured rational or `np.inf`. -/
inductive Cost where
  | finite (t : ℚ)
  | inf
deriving DecidableEq

/-- How one `run` step terminates: a `Result` returned to the search
backend, or an exception propagating out of `run`. -/
inductive RunOutcome where
  | result (c : Cost)
  | raised (e : PyError)
deriving DecidableEq

/-- The environment of one `run` step: the behaviour of the two external
measurement calls on this candidate
(`stringify_comparison_vs_roofline`, whose string result is only
logged, and `timeit`), and the strings recorded on success. -/
structure RunEnv where
  roofline : MeasureOutcome String
  timeit : MeasureOutcome ℚ
  compiler_version : String
  timestamp : String

/-- The observable effects of one `run` step: its outcome, the database
afterwards, and how often each measurement collaborator was entered. -/
structure RunTrace where
  outcome : RunOutcome
  db : List DBRecord
  rooflineCalls : Nat
  timeitCalls : Nat
deriving DecidableEq

/-- Model of `OpentunerTuner.run` for one candidate configuration `cfg`:
query the cache, and on a `ConfigurationNotInDBError` miss fall through
to measurement; a hit returns the cached runtime at once.  On a miss,
`stringify_comparison_vs_roofline` runs first: its
`InvalidParameterError` is caught and reported as `np.inf`, any other
exception propagates.  Then `timeit` runs unguarded: any exception it
raises (including `InvalidParameterError`) propagates; on success the
runtime is recorded into the database and reported. -/
def run (t : Tuner) (env : RunEnv) (db : List DBRecord) (cfg : Params) : RunTrace :=
  match query_from_db t db cfg with
  | .ok r => ⟨.result (.finite r), db, 0, 0⟩
  | .error _ =>
    match env.roofline with
    | .raiseInvalidParameter => ⟨.result .inf, db, 1, 0⟩
    | .raiseOther => ⟨.raised .otherError, db, 1, 0⟩
    | .ok _ =>
      match env.timeit with
      | .ok rt =>
        ⟨.result (.finite rt),
         record_into_db t db rt cfg env.compiler_version env.timestamp, 1, 1⟩
      | .raiseInvalidParameter => ⟨.raised .invalidParameterError, db, 1, 1⟩
      | .raiseOther => ⟨.raised .otherError, db, 1, 1⟩

/-- Python runtime values that may be passed as a bound to
`IntParameter.__init__`.  `isinstance(v, INT_CLASSES)` holds exactly for
the `int` constructor. -/
inductive PyVal where
  | int (n : Int)
  | float (q : ℚ)
  | str (s : String)
  | none
deriving DecidableEq

/-- The `isinstance(v, INT_CLASSES)` check of `IntParameter.__init__`. -/
def PyVal.isInt : PyVal → Bool
  | .int _ => true
  | _ => false

/-- The frozen dataclass `IntParameter`: a parameter taking values in
the range `[low, high]`. -/
structure IntParameter where
  low : Int
  high : Int
deriving DecidableEq

/-- Model of `IntParameter.__init__`: check `low` and then `high`
against `INT_CLASSES`, raising `ValueError` with the corresponding
message on the first failure; on success store exactly the given pair.
No other check is made. -/
def IntParameter.init (low high : PyVal) : Except String IntParameter :=
  match low with
  | .int l =>
    match high with
    | .int h => .ok ⟨l, h⟩
    | _ => .error "high must be an integer"
  | _ => .error "low must be an integer"

/-- The underlying transform callable of a `ParametrizedTransform`,
identified opaquely; `memoized` records whether it was wrapped with
`functools.cache` (as the decorators do on a raw callable). -/
structure TransformCallable where
  fnId : Nat
  memoized : Bool
deriving DecidableEq

/-- The frozen dataclass `einsum_arg`: a derived-argument binding of a
formal parameter name to a function of the einsum.  `funcId` is the
identity of the Python function object; `func` its behaviour. -/
structure einsum_arg (E V : Type) where
  var_name : String
  funcId : Nat
  func : E → V

/-- The frozen dataclass `transform_param`: a tunable-parameter binding
of a name to a function from the einsum to a tuning parameter (kept
opaque here). -/
structure transform_param where
  var_name : String
  funcId : Nat
deriving DecidableEq

/-- The frozen dataclass `ParametrizedTransform`: the underlying
callable plus the ordered derived-argument and tunable-parameter
binding lists. -/
structure ParametrizedTransform (E V : Type) where
  transform : TransformCallable
  einsum_derivative_args : List (einsum_arg E V)
  transform_params : List transform_param

/-- A Python callable that a decorator may receive: either an existing
`ParametrizedTransform` or a raw function. -/
inductive PyCallable (E V : Type) where
  | parametrized (pt : ParametrizedTransform E V)
  | raw (fnId : Nat)

/-- Model of `einsum_arg.__call__`: decorating an existing
`ParametrizedTransform` prepends this binding to its derived-argument
list; decorating a raw callable first wraps it with `functools.cache`. -/
def einsum_arg.decorate {E V : Type} (a : einsum_arg E V) :
    PyCallable E V → ParametrizedTransform E V
  | .parametrized pt => ⟨pt.transform, a :: pt.einsum_derivative_args, pt.transform_params⟩
  | .raw fnId => ⟨⟨fnId, true⟩, [a], []⟩

/-- Model of `transform_param.__call__`: symmetric to
`einsum_arg.decorate`, prepending to the tunable-parameter list. -/
def transform_param.decorate {E V : Type} (p : transform_param) :
    PyCallable E V → ParametrizedTransform E V
  | .parametrized pt => ⟨pt.transform, pt.einsum_derivative_args, p :: pt.transform_params⟩
  | .raw fnId => ⟨⟨fnId, true⟩, [], [p]⟩

/-- Insertion of one item into a Python dict: an existing key has its
value overwritten in place, a new key is appended. -/
def pyDictInsert {V : Type} (d : List (String × V)) (kv : String × V) :
    List (String × V) :=
  if d.any (fun p => p.1 == kv.1) then
    d.map (fun p => if p.1 == kv.1 then (p.1, kv.2) else p)
  else
    d ++ [kv]

/-- A Python dict built from a sequence of items (as the dict
comprehension in `bind_args` does). -/
def pyDict {V : Type} (l : List (String × V)) : List (String × V) :=
  l.foldl pyDictInsert []

/-- The result of `functools.partial(transform, **kwargs)`: the
underlying callable together with the keyword arguments it was
partially applied to. -/
structure BoundTransform (V : Type) where
  transform : TransformCallable
  kwargs : List (String × V)

/-- CPython semantics of a call `f(**d1, **d2)`: the keyword dicts are
merged left to right and a key occurring in both raises
`TypeError: got multiple values for keyword argument ...`. -/
def mergeCallKwargs {V : Type} (d1 d2 : List (String × V)) :
    Except String (List (String × V)) :=
  match d2.find? (fun kv => d1.any (fun p => p.1 == kv.1)) with
  | some kv => .error ("got multiple values for keyword argument " ++ kv.1)
  | Option.none => .ok (d1 ++ d2)

/-- The derived-value dict built by the comprehension in `bind_args`:
`arg.var_name` mapped to `arg.func(einsum)` for every derived-argument
binding. -/
def derivedDict {E V : Type} (pt : ParametrizedTransform E V) (einsum : E) :
    List (String × V) :=
  pyDict (pt.einsum_derivative_args.map (fun a => (a.var_name, a.func einsum)))

/-- Model of `ParametrizedTransform.bind_args`: build the derived-value
dict by invoking every derived-argument function on the einsum, then
return `partial(self.transform, **derived, **transform_args)`. -/
def ParametrizedTransform.bind_args {E V : Type} (pt : ParametrizedTransform E V)
    (einsum : E) (transform_args : List (String × V)) :
    Except String (BoundTransform V) :=
  match mergeCallKwargs (derivedDict pt einsum) transform_args with
  | .error msg => .error msg
  | .ok merged => .ok ⟨pt.transform, merged⟩

/-- The derived-argument function invocations performed by one call to
`bind_args`: the dict comprehension evaluates `arg.func(einsum)` once
for every entry of `einsum_derivative_args`, every time `bind_args`
runs. -/
def bind_args_calls {E V : Type} (pt : ParametrizedTransform E V) (einsum : E) :
    List (Nat × E) :=
  pt.einsum_derivative_args.map (fun a => (a.funcId, einsum))

/-- The derived-argument function invocations performed by binding the
same `ParametrizedTransform` twice with the same einsum. -/
def two_binds_calls {E V : Type} (pt : ParametrizedTransform E V) (einsum : E) :
    List (Nat × E) :=
  bind_args_calls pt einsum ++ bind_args_calls pt einsum

/-- The `transform` symbol found in a dynamically loaded module: an
existing `ParametrizedTransform`, a raw callable, or a non-callable
object. -/
inductive TransformSymbol (E V : Type) where
  | parametrized (pt : ParametrizedTransform E V)
  | rawCallable (fnId : Nat)
  | nonCallable

/-- What `importlib.util.spec_from_file_location` and module execution
yield for a path: no loadable module (spec or loader is `None`), or a
loaded module whose `transform` attribute may be absent. -/
inductive ModuleResolution (E V : Type) where
  | unloadable
  | loaded (transform : Option (TransformSymbol E V))

/-- The exceptions `get_transform_func_from_module_path` can raise: the
`assert` failures (non-`.py` filename, non-callable symbol), the
explicit `RuntimeError` for an unloadable path, and the
`AttributeError` for a module without a `transform` attribute. -/
inductive LoaderError where
  | assertionError
  | runtimeError (msg : String)
  | attributeError
deriving DecidableEq

/-- The `filename.endswith(".py")` test, computed on the character
list. -/
def str_endsWith (s post : String) : Bool :=
  post.toList.isSuffixOf s.toList

/-- Model of `get_transform_func_from_module_path` over an abstract
module resolver: assert the filename ends in `.py`, resolve the module
(raising `RuntimeError` when it is unloadable), fetch its `transform`
attribute (raising `AttributeError` when missing), return it unchanged
when it already is a `ParametrizedTransform`, assert it is callable,
and otherwise wrap it as `ParametrizedTransform(transform_obj, (), ())`
with empty binding lists (and no `functools.cache` wrapping). -/
def get_transform_func_from_module_path {E V : Type}
    (resolve : String → ModuleResolution E V) (module_path : String) :
    Except LoaderError (ParametrizedTransform E V) :=
  if str_endsWith module_path ".py" then
    match resolve module_path with
    | .unloadable =>
      .error (.runtimeError ("Could not import transform function from " ++ module_path))
    | .loaded Option.none => .error .attributeError
    | .loaded (some (.parametrized pt)) => .ok pt
    | .loaded (some (.rawCallable fnId)) => .ok ⟨⟨fnId, false⟩, [], []⟩
    | .loaded (some .nonCallable) => .error .assertionError
  else
    .error .assertionError

/-- Model of `os.path.isabs` on a POSIX system: the path starts with a
slash (computed on the character list). -/
def os_path_isabs (p : String) : Bool := p.toList.take 1 == ['/']

/-- How a call to `autotune` proceeds: the immediate `ValueError` for a
relative module path, or entering `OpentunerTuner.main` (which performs
all loading, database access and search) with the resolved database
path. -/
inductive AutotuneOutcome where
  | valueError (msg : String)
  | runsTunerMain (module_path db_path : String)
deriving DecidableEq

/-- Model of the `autotune` entry point up to the hand-off to
`OpentunerTuner.main`: its first statement raises `ValueError` when the
module path is not absolute; only afterwards is the database path
defaulted and the tuner started. -/
def autotune (module_path : String) (db_path : Option String)
    (default_db : String) : AutotuneOutcome :=
  if os_path_isabs module_path then
    .runsTunerMain module_path (db_path.getD default_db)
  else
    .valueError "autotune expects an absolute path for the module"

/-- Tuner state for exercising the lookup: its transform-space identity
is `space_b.py`. -/
def c1Tuner : Tuner := ⟨"ij,jk", "len", "use", "dtype", "gop", "space_b.py"⟩

/-- A stored row with the same fingerprint and parameters but from the
other transform space `space_a.py`, runtime 1 second. -/
def c1RowOther : DBRecord :=
  ⟨"ij,jk", "len", "use", "dtype", "space_a.py", dumps [("tile", JValue.jint 4)],
   1, "cv", "gop", "t0"⟩

/-- A stored row from the tuner's own transform space `space_b.py`,
runtime 2 seconds. -/
def c1RowMatch : DBRecord :=
  ⟨"ij,jk", "len", "use", "dtype", "space_b.py", dumps [("tile", JValue.jint 4)],
   2, "cv", "gop", "t1"⟩

/-- C1: the claim states that the lookup aggregates the minimum runtime
over the records matching the full key including the transform-space
identity.  The `WHERE` clause of `query_from_db` does not compare
`transform_id`, so with two rows of equal fingerprint and parameters
from two different transform spaces the lookup returns 1 (the minimum
across both spaces) although the only row matching the claimed full key
has runtime 2. -/
theorem query_from_db_ignores_transform_id :
    query_from_db c1Tuner [c1RowOther, c1RowMatch] [("tile", JValue.jint 4)] = .ok 1
    ∧ (List.filter (matchesSpecKey c1Tuner (dumps [("tile", JValue.jint 4)]))
        [c1RowOther, c1RowMatch]).map DBRecord.runtime_in_sec = [2]
    ∧ (1 : ℚ) ≠ 2 :=
  ⟨rfl, rfl, by norm_num⟩

/-- C2: on a cache hit, `run` returns the cached runtime to the search
backend at once: neither measurement collaborator is entered and the
database is unchanged, whatever the measurement environment would have
done. -/
theorem run_db_hit_skips_measurement (t : Tuner) (env : RunEnv)
    (db : List DBRecord) (cfg : Params) (r : ℚ)
    (hhit : query_from_db t db cfg = .ok r) :
    run t env db cfg = ⟨.result (.finite r), db, 0, 0⟩ := by
  unfold run
  rw [hhit]

/-- Tuner state for the cache-hit witness. -/
def c2Tuner : Tuner := ⟨"s", "i", "u", "v", "g", "sp.py"⟩

/-- A cached row for configuration `tile = 4` at runtime 3 seconds. -/
def c2Row : DBRecord :=
  ⟨"s", "i", "u", "v", "sp.py", dumps [("tile", JValue.jint 4)], 3, "cv", "g", "t0"⟩

/-- A measurement environment whose collaborators would return normally
if they were (wrongly) consulted. -/
def c2Env : RunEnv := ⟨.ok "tbl", .ok 9, "cv", "t1"⟩

/-- Witness for C2 at the seeded configuration of the spec example:
lookup of `tile = 4` hits with 3 seconds and `run` reports it without
any measurement call. -/
theorem run_db_hit_skips_measurement_witness :
    run c2Tuner c2Env [c2Row] [("tile", JValue.jint 4)] =
      ⟨.result (.finite 3), [c2Row], 0, 0⟩ :=
  run_db_hit_skips_measurement c2Tuner c2Env [c2Row] [("tile", JValue.jint 4)] 3 rfl

/-- Tuner state for the measurement-error counterexample. -/
def c3Tuner : Tuner := ⟨"s", "i", "u", "v", "g", "sp.py"⟩

/-- An environment where the roofline comparison succeeds and `timeit`
raises `InvalidParameterError`. -/
def c3Env : RunEnv := ⟨.ok "tbl", .raiseInvalidParameter, "cv", "t1"⟩

/-- C3 counterexample: the claim states that an invalid-parameter error
raised on the measurement path makes the driver report an infinite
cost.  When `timeit` — the collaborator that produces the runtime —
raises `InvalidParameterError`, `run` instead propagates the exception:
only the roofline-comparison call is guarded in the source. -/
theorem run_timeit_invalid_param_propagates :
    run c3Tuner c3Env [] [("tile", JValue.jint 4)] =
      ⟨.raised .invalidParameterError, [], 1, 1⟩
    ∧ c3Env.timeit = .raiseInvalidParameter
    ∧ RunOutcome.raised .invalidParameterError ≠ RunOutcome.result .inf :=
  ⟨rfl, rfl, fun h => RunOutcome.noConfusion h⟩

/-- C3 (amended): on a cache miss, an `InvalidParameterError` from the
roofline-comparison step is reported as infinite cost with nothing
recorded; any other error from that step propagates; and any error from
the unguarded `timeit` step — including `InvalidParameterError` —
propagates and aborts the run. -/
theorem run_measurement_error_classification (t : Tuner) (env : RunEnv)
    (db : List DBRecord) (cfg : Params) (e : ConfigurationNotInDBError)
    (hmiss : query_from_db t db cfg = .error e) :
    (env.roofline = .raiseInvalidParameter →
      run t env db cfg = ⟨.result .inf, db, 1, 0⟩)
    ∧ (env.roofline = .raiseOther →
      run t env db cfg = ⟨.raised .otherError, db, 1, 0⟩)
    ∧ (∀ s, env.roofline = .ok s → env.timeit = .raiseInvalidParameter →
      run t env db cfg = ⟨.raised .invalidParameterError, db, 1, 1⟩)
    ∧ (∀ s, env.roofline = .ok s → env.timeit = .raiseOther →
      run t env db cfg = ⟨.raised .otherError, db, 1, 1⟩) := by
  unfold run
  rw [hmiss]
  refine ⟨fun h => by rw [h], fun h => by rw [h], ?_, ?_⟩
  · intro s h₁ h₂
    rw [h₁, h₂]
  · intro s h₁ h₂
    rw [h₁, h₂]

/-- An environment whose roofline comparison raises
`InvalidParameterError`. -/
def c3wEnv : RunEnv := ⟨.raiseInvalidParameter, .ok 9, "cv", "t1"⟩

/-- Witness for the amended C3: on an empty database (a miss), a
roofline-step `InvalidParameterError` is reported as infinite cost and
nothing is recorded. -/
theorem run_measurement_error_classification_witness :
    run c3Tuner c3wEnv [] [("tile", JValue.jint 4)] = ⟨.result .inf, [], 1, 0⟩ :=
  (run_measurement_error_classification c3Tuner c3wEnv [] [("tile", JValue.jint 4)]
    .mk rfl).1 rfl

/-- C4: both `record_into_db` and `query_from_db` serialize the
parameter assignment with `json.dumps(..., sort_keys=True)`, so two
assignments that are equal as key-value mappings (permutations of each
other with no duplicate keys) serialize to the same string, and a
record inserted under one ordering is found under the other with the
same runtime. -/
theorem cache_roundtrip_order_independent (t : Tuner) (ps₁ ps₂ : Params)
    (rt : ℚ) (cv ts : String) (hperm : ps₁.Perm ps₂)
    (hnd : (ps₁.map Prod.fst).Nodup) :
    dumps ps₁ = dumps ps₂
    ∧ query_from_db t (record_into_db t [] rt ps₁ cv ts) ps₂ = .ok rt := by
  have hd := dumps_eq_of_perm hperm hnd
  refine ⟨hd, ?_⟩
  unfold query_from_db record_into_db
  have hm : matchesQuery t (dumps ps₂)
      ⟨t.subscripts, t.index_to_length, t.use_matrix, t.value_to_dtype,
       t.transform_space_id, dumps ps₁, rt, cv, t.giga_op_info, ts⟩ = true := by
    simp [matchesQuery, hd]
  simp [List.filter_cons, hm]

/-- Tuner state for the round-trip witness. -/
def c4Tuner : Tuner := ⟨"s", "i", "u", "v", "g", "sp.py"⟩

/-- Witness for C4 at the spec example: parameters inserted as
`a = 1, b = true` and looked up in the reordered form are found at the
inserted runtime. -/
theorem cache_roundtrip_order_independent_witness :
    dumps [("a", JValue.jint 1), ("b", JValue.jbool true)] =
      dumps [("b", JValue.jbool true), ("a", JValue.jint 1)]
    ∧ query_from_db c4Tuner
        (record_into_db c4Tuner [] 3 [("a", JValue.jint 1), ("b", JValue.jbool true)]
          "cv" "t0")
        [("b", JValue.jbool true), ("a", JValue.jint 1)] = .ok 3 :=
  cache_roundtrip_order_independent c4Tuner
    [("a", JValue.jint 1), ("b", JValue.jbool true)]
    [("b", JValue.jbool true), ("a", JValue.jint 1)]
    3 "cv" "t0" (by decide) (by decide)

/-- C5: `IntParameter.__init__` checks `low` first and then `high`
against `INT_CLASSES`, raising `ValueError` naming the offending bound;
with both bounds integers it succeeds and stores exactly the pair. -/
theorem intParameter_init_validation (low high : PyVal) :
    (low.isInt = false → IntParameter.init low high = .error "low must be an integer")
    ∧ (∀ l : Int, low = .int l → high.isInt = false →
        IntParameter.init low high = .error "high must be an integer")
    ∧ (∀ l h : Int, low = .int l → high = .int h →
        IntParameter.init low high = .ok ⟨l, h⟩) := by
  refine ⟨?_, ?_, ?_⟩
  · intro hl
    cases low with
    | int n => simp [PyVal.isInt] at hl
    | float q => rfl
    | str s => rfl
    | none => rfl
  · intro l hl hh
    subst hl
    cases high with
    | int n => simp [PyVal.isInt] at hh
    | float q => rfl
    | str s => rfl
    | none => rfl
  · intro l h hl hh
    subst hl
    subst hh
    rfl

/-- Witness for C5: a non-integer `low` bound is rejected with the
error naming `low`. -/
theorem intParameter_init_validation_witness :
    IntParameter.init (.float 3) (.int 2) = .error "low must be an integer" :=
  (intParameter_init_validation (.float 3) (.int 2)).1 rfl

/-- C6 counterexample: the claim states every successfully constructed
parameter satisfies `low ≤ high`; but `IntParameter.__init__` performs
no such check and happily constructs the empty range `(5, 2)`. -/
theorem intParameter_accepts_low_gt_high :
    IntParameter.init (.int 5) (.int 2) = .ok ⟨5, 2⟩ ∧ ¬ ((5 : Int) ≤ 2) :=
  ⟨rfl, by decide⟩

/-- C6 (amended): construction only validates that both bounds are
integers; any integer pair is accepted, including pairs with
`low > high`, so the non-empty-range invariant is not enforced. -/
theorem intParameter_init_accepts_any_int_pair (l h : Int) :
    IntParameter.init (.int l) (.int h) = .ok ⟨l, h⟩ := rfl

/-- A parametrized transform with a single derived-argument binding
named `x` (function identity 0, value 1). -/
def c7pt : ParametrizedTransform Unit Int := ⟨⟨0, true⟩, [⟨"x", 0, fun _ => 1⟩], []⟩

/-- C7 counterexample: the claim states that on a name collision the
caller-supplied tunable value takes precedence and the bind succeeds.
`bind_args` builds `partial(transform, **derived, **transform_args)`,
and a key present in both keyword unpackings raises `TypeError` in
Python, so binding `c7pt` with a tunable value for the derived name `x`
fails instead of preferring the tunable value. -/
theorem bind_args_collision_raises :
    c7pt.bind_args () [("x", 2)] =
      .error "got multiple values for keyword argument x"
    ∧ c7pt.bind_args () [("x", 2)] ≠ .ok ⟨⟨0, true⟩, [("x", 2)]⟩ := by
  refine ⟨rfl, ?_⟩
  intro h
  have he : c7pt.bind_args () [("x", 2)] =
      .error "got multiple values for keyword argument x" := rfl
  rw [he] at h
  exact Except.noConfusion h

/-- C7 (amended): `bind_args` returns the partial application of the
underlying callable over the derived-argument values merged with the
tunable values when their name sets are disjoint; on a name collision
it fails with the duplicate-keyword `TypeError` instead of giving the
tunable value precedence. -/
theorem bind_args_merge_or_collision {E V : Type} (pt : ParametrizedTransform E V)
    (einsum : E) (transform_args : List (String × V)) :
    (transform_args.find?
        (fun kv => (derivedDict pt einsum).any (fun p => p.1 == kv.1)) = Option.none →
      pt.bind_args einsum transform_args =
        .ok ⟨pt.transform, derivedDict pt einsum ++ transform_args⟩)
    ∧ (∀ kv, transform_args.find?
        (fun kv => (derivedDict pt einsum).any (fun p => p.1 == kv.1)) = some kv →
      pt.bind_args einsum transform_args =
        .error ("got multiple values for keyword argument " ++ kv.1)) := by
  unfold ParametrizedTransform.bind_args mergeCallKwargs
  constructor
  · intro h
    rw [h]
  · intro kv h
    rw [h]

/-- Witness for the amended C7: with the disjoint tunable name `y`, the
bind succeeds and partially applies the transform over the merged
keyword set. -/
theorem bind_args_merge_or_collision_witness :
    c7pt.bind_args () [("y", 2)] = .ok ⟨⟨0, true⟩, [("x", 1), ("y", 2)]⟩ :=
  (bind_args_merge_or_collision c7pt () [("y", 2)]).1 rfl

/-- A parametrized transform with a single derived-argument binding
whose function has identity 7. -/
def c8pt : ParametrizedTransform Unit Int := ⟨⟨0, true⟩, [⟨"d", 7, fun _ => 1⟩], []⟩

/-- C8 counterexample: the claim states two binds with the same problem
instance invoke each derived-argument function at most once (memoized).
The dict comprehension in `bind_args` calls `arg.func(einsum)` on every
bind — only the underlying transform is wrapped in `functools.cache`,
the derived-argument functions are not — so two binds of `c8pt` invoke
function 7 twice. -/
theorem bind_twice_calls_derived_twice :
    (two_binds_calls c8pt ()).count (7, ()) = 2
    ∧ ¬ ((two_binds_calls c8pt ()).count (7, ()) ≤ 1) :=
  ⟨rfl, by decide⟩

/-- C8 (amended): binding twice invokes each derived-argument function
once per bind, i.e. exactly twice as often across the two binds as the
function identity occurs among the derived-argument bindings; the
binding lists themselves are never mutated (the dataclass is frozen and
`bind_args` only reads them). -/
theorem bind_twice_invocation_count {E V : Type} [DecidableEq E]
    (pt : ParametrizedTransform E V) (einsum : E) (fid : Nat) :
    (two_binds_calls pt einsum).count (fid, einsum) =
      2 * (pt.einsum_derivative_args.map einsum_arg.funcId).count fid := by
  unfold two_binds_calls bind_args_calls
  rw [List.count_append]
  have h : ∀ l : List (einsum_arg E V),
      (l.map (fun a => (a.funcId, einsum))).count (fid, einsum) =
        (l.map einsum_arg.funcId).count fid := by
    intro l
    induction l with
    | nil => rfl
    | cons a l ih =>
      simp only [List.map_cons, List.count_cons, ih]
      congr 1
      simp [Prod.ext_iff]
  rw [h]
  ring

/-- C9: the loader returns an exported `ParametrizedTransform`
unchanged; wraps an exported raw callable in a `ParametrizedTransform`
with empty derived-argument and tunable-parameter lists; and raises an
error when the path yields no loadable module (`RuntimeError`), when
the `transform` symbol is missing (`AttributeError`), or when it is not
callable (`AssertionError`). -/
theorem get_transform_func_cases {E V : Type}
    (resolve : String → ModuleResolution E V) (module_path : String)
    (hpy : str_endsWith module_path ".py" = true) :
    (∀ pt : ParametrizedTransform E V,
      resolve module_path = .loaded (some (.parametrized pt)) →
        get_transform_func_from_module_path resolve module_path = .ok pt)
    ∧ (∀ fnId : Nat, resolve module_path = .loaded (some (.rawCallable fnId)) →
        get_transform_func_from_module_path resolve module_path =
          .ok ⟨⟨fnId, false⟩, [], []⟩)
    ∧ (resolve module_path = .unloadable →
        get_transform_func_from_module_path resolve module_path =
          .error (.runtimeError
            ("Could not import transform function from " ++ module_path)))
    ∧ (resolve module_path = .loaded Option.none →
        get_transform_func_from_module_path resolve module_path =
          .error .attributeError)
    ∧ (resolve module_path = .loaded (some .nonCallable) →
        get_transform_func_from_module_path resolve module_path =
          .error .assertionError) := by
  unfold get_transform_func_from_module_path
  rw [if_pos hpy]
  refine ⟨?_, ?_, fun h => by rw [h], fun h => by rw [h], fun h => by rw [h]⟩
  · intro pt h
    rw [h]
  · intro fnId h
    rw [h]

/-- A module resolver exporting a raw callable with identity 5 as its
`transform` symbol. -/
def c9resolve : String → ModuleResolution Unit Int :=
  fun _ => .loaded (some (.rawCallable 5))

/-- Witness for C9: loading a module whose `transform` is a raw
callable yields it wrapped with empty binding lists. -/
theorem get_transform_func_cases_witness :
    get_transform_func_from_module_path c9resolve "/impls/t.py" =
      .ok ⟨⟨5, false⟩, [], []⟩ :=
  ((get_transform_func_cases c9resolve "/impls/t.py" rfl).2.1) 5 rfl

/-- C10: `autotune` raises `ValueError` as its first statement whenever
the module path is not absolute, so the tuner (and with it all loading,
database access and search) is never entered. -/
theorem autotune_rejects_relative_path (module_path : String)
    (db_path : Option String) (default_db : String)
    (hrel : os_path_isabs module_path = false) :
    autotune module_path db_path default_db =
      .valueError "autotune expects an absolute path for the module"
    ∧ ∀ mp dbp, autotune module_path db_path default_db ≠ .runsTunerMain mp dbp := by
  have he : autotune module_path db_path default_db =
      .valueError "autotune expects an absolute path for the module" := by
    unfold autotune
    rw [hrel]
    rfl
  refine ⟨he, ?_⟩
  intro mp dbp h
  rw [he] at h
  exact AutotuneOutcome.noConfusion h

/-- Witness for C10: the relative path `examples/t.py` is rejected
before anything runs. -/
theorem autotune_rejects_relative_path_witness :
    autotune "examples/t.py" Option.none "default.db" =
      .valueError "autotune expects an absolute path for the module" :=
  (autotune_rejects_relative_path "examples/t.py" Option.none "default.db" rfl).1

end Feinsum
